import Mathlib

/-!
Verification of the PyVisca protocol engine (`pyviscam/camera.py` and
`pyviscam/port.py`): packet framing and addressing, the command handshake,
the query handshake with its buffer-full retry, and the response decoder.

The serial line is modelled as a mock transport: a list of reply frames the
camera will deliver, one frame per read, together with an event trace that
records every lock acquisition and release (`Serial.mutex`), every written
packet and every received frame.  Bytes are `Nat` values below 256; Python
`None`/`False`/string results are modelled by explicit sum types; Python
exceptions (`AttributeError`, `ValueError`, `IndexError`, `TypeError`) are
modelled by `Except.error`.
-/

/-- Decidable equality for `Except`, used to evaluate the model on concrete
mock transports. -/
instance {ε α : Type} [DecidableEq ε] [DecidableEq α] : DecidableEq (Except ε α) := fun x y =>
  match x, y with
  | Except.error e, Except.error f =>
    if h : e = f then Decidable.isTrue (h ▸ rfl)
    else Decidable.isFalse (fun hh => h (Except.error.inj hh))
  | Except.ok a, Except.ok b =>
    if h : a = b then Decidable.isTrue (h ▸ rfl)
    else Decidable.isFalse (fun hh => h (Except.ok.inj hh))
  | Except.error _, Except.ok _ => Decidable.isFalse (fun hh => Except.noConfusion hh)
  | Except.ok _, Except.error _ => Decidable.isFalse (fun hh => Except.noConfusion hh)

/-- Transport events recorded by the mock serial state: a lock acquisition or
release of `Serial.mutex`, a written packet, and a received frame. -/
inductive Ev where
  | acquire : Ev
  | release : Ev
  | write : List Nat → Ev
  | read : List Nat → Ev
  deriving DecidableEq

/-- Mock serial state: `replies` are the frames the camera will deliver, one
per read (an exhausted list models a read that times out with no data);
`events` is the trace of transport operations performed so far. -/
structure SerialState where
  replies : List (List Nat)
  events : List Ev
  deriving DecidableEq

/-- Read loop of `port.py Serial.recv_packet` (lines 62-78): read one byte at
a time, at most 16, appending each byte read and stopping after the `0xff`
terminator; an exhausted stream models the per-byte timeout, which breaks the
loop and returns the bytes accumulated so far. -/
def recvLoop : List Nat → Nat → List Nat
  | _, 0 => []
  | [], _ + 1 => []
  | b :: rest, n + 1 => if b = 0xff then [b] else b :: recvLoop rest n

/-- One read of the mock transport (`port.py Serial.recv_packet`): the next
reply frame passes through the 16-byte/terminator read loop and is recorded
in the trace; an empty `replies` list is a timeout returning no bytes. -/
def recv_packet (s : SerialState) : List Nat × SerialState :=
  match s.replies with
  | [] => ([], ⟨[], s.events ++ [Ev.read []]⟩)
  | f :: rest =>
      let r := recvLoop f 16
      (r, ⟨rest, s.events ++ [Ev.read r]⟩)

/-- Recipient bits of `camera.py Camera._send_packet` (lines 54-59):
`0x8` for the broadcast recipient `-1`, otherwise `recipient & 0b111`.  For
every Python int, `recipient & 0b111` is the nonnegative residue mod 8,
written here as `(recipient % 8).toNat` (`Int.emod` is nonnegative for a
positive modulus). -/
def rbits (recipient : Int) : Nat :=
  if recipient = -1 then 0x8 else (recipient % 8).toNat

/-- Sender bits of `camera.py Camera._send_packet` (line 60): the controller
has id 0, so `sbits = (0 & 0b111) << 4`. -/
def sbits : Nat := (0 &&& 0b111) <<< 4

/-- Header byte of `camera.py Camera._send_packet` (line 61):
`0b10000000 | sbits | rbits`. -/
def headerByte (recipient : Int) : Nat := 0b10000000 ||| sbits ||| rbits recipient

/-- On-wire packet built by `camera.py Camera._send_packet` (line 63):
`chr(header) + data + chr(0xff)`.  No length check is performed on `data`. -/
def encodePacket (recipient : Int) (data : List Nat) : List Nat :=
  headerByte recipient :: (data ++ [0xff])

/-- `camera.py Camera._send_packet` (lines 63-75): acquire the mutex, write
the framed packet, read one reply frame.  A truthy reply is checked for the
`0xff` terminator (a malformed reply becomes `None`), the mutex is released
and the reply returned; on a falsy reply (timeout with no bytes) the function
returns `None` *without releasing the mutex* — exactly as the Python code
does, whose `mutex.release()` sits inside the `if reply:` branch only. -/
def send_packet (recipient : Int) (data : List Nat) (s : SerialState) :
    Option (List Nat) × SerialState :=
  let packet := encodePacket recipient data
  let s1 : SerialState := ⟨s.replies, s.events ++ [Ev.acquire, Ev.write packet]⟩
  let p := recv_packet s1
  let reply := p.1
  let s2 := p.2
  if reply = [] then (none, s2)
  else if reply.getLast? ≠ some 0xff then
    (none, ⟨s2.replies, s2.events ++ [Ev.release]⟩)
  else (some reply, ⟨s2.replies, s2.events ++ [Ev.release]⟩)

/-- `camera.py Camera._cmd_cam` (lines 84-120): send `prefix + subcmd` (to
recipient 1, the `_send_packet` default), then pattern-match the first reply:
ack on socket 1 or 2 triggers one more read expecting the completion on the
same socket (`True` on match, fall-through `None` otherwise); syntax error and
the two not-executable replies return `False`; anything else falls through and
Python returns `None`.  `Option Bool` models the Python result set
`{True, False, None}`. -/
def cmd_cam (pfx subcmd : List Nat) (s : SerialState) : Option Bool × SerialState :=
  match send_packet 1 (pfx ++ subcmd) s with
  | (none, s') => (none, s')
  | (some r, s') =>
    if r = [0x90, 0x41, 0xff] then
      let q := recv_packet s'
      if q.1 = [0x90, 0x51, 0xff] then (some true, q.2) else (none, q.2)
    else if r = [0x90, 0x42, 0xff] then
      let q := recv_packet s'
      if q.1 = [0x90, 0x52, 0xff] then (some true, q.2) else (none, q.2)
    else if r = [0x90, 0x60, 0x02, 0xff] then (some false, s')
    else if r = [0x90, 0x61, 0x41, 0xff] then (some false, s')
    else if r = [0x90, 0x62, 0x41, 0xff] then (some false, s')
    else (none, s')

/-- Python value returned by `camera.py Camera._come_back`: `None`, `False`,
or the raw reply string. -/
inductive PyReply where
  | pnone : PyReply
  | pfalse : PyReply
  | pstr : List Nat → PyReply
  deriving DecidableEq

/-- Fueled body of `camera.py Camera._come_back` (lines 122-143).  A `None`
reply from `_send_packet` (timeout or malformed frame) reaches
`reply.startswith(...)` and raises `AttributeError` (`.error`).  On the
buffer-full reply the query is retransmitted by a recursive call whose result
is *discarded* (the Python code lacks a `return` on line 134), so the branch
yields `None` while keeping the recursion's transport effects.  A completion
reply (starts with `0x90 0x50`) is returned; a syntax error returns `False`;
any other terminated frame falls through to `None`.  Each recursion step
consumes one reply frame from the mock transport, so fuel
`replies.length + 1` (supplied by `come_back`) is never exhausted: the fuel
case is unreachable and mirrors the crash Python hits once the transport has
nothing left to deliver. -/
def come_backF : Nat → List Nat → SerialState → Except Unit (PyReply × SerialState)
  | 0, _, _ => .error ()
  | fuel + 1, query, s =>
    match send_packet 1 query s with
    | (none, _) => .error ()
    | (some r, s') =>
      if r = [0x90, 0x60, 0x03, 0xff] then
        match come_backF fuel query s' with
        | .error e => .error e
        | .ok (_, s'') => .ok (PyReply.pnone, s'')
      else if r.take 2 = [0x90, 0x50] then .ok (PyReply.pstr r, s')
      else if r = [0x90, 0x60, 0x02, 0xff] then .ok (PyReply.pfalse, s')
      else .ok (PyReply.pnone, s')

/-- `camera.py Camera._come_back` over a mock transport: the unbounded Python
recursion retransmits once per available reply frame, so it is run with fuel
`replies.length + 1`, which cannot run out before the transport does. -/
def come_back (query : List Nat) (s : SerialState) : Except Unit (PyReply × SerialState) :=
  come_backF (s.replies.length + 1) query s

/-- A decoded Python value produced by `camera.py Camera._query`: `False` or
`None`, a bare integer, a list of hex groups (modelled by their byte values),
a formatted string, or the pan/tilt pair. -/
inductive PyVal where
  | vbool : Bool → PyVal
  | vnone : PyVal
  | vint : Nat → PyVal
  | vlist : List Nat → PyVal
  | vstr : String → PyVal
  | vpair : Int → Int → PyVal
  deriving DecidableEq

/-- The external lookup tables consumed by `Camera._query`: the
property-name → opcode table `queries`, the per-property translation
dictionaries `answers`, and the `high_res_params` / `very_high_res_params`
classifications.  They live in `pyviscam/constants.py`, which is external
configuration data; the spec defines their shape (name → bytes, name →
decode kind) but not their contents, so they are parameters here. -/
structure Tables where
  queries : List (String × List Nat)
  answers : List (String × List (PyVal × PyVal))
  high_res : List String
  very_high_res : List String
  deriving DecidableEq

/-- Association-list lookup, modelling Python `dict` indexing. -/
def lookupTbl {α : Type} (k : String) : List (String × α) → Option α
  | [] => none
  | (k', v) :: rest => if k = k' then some v else lookupTbl k rest

/-- Lookup of a decoded value in a per-property translation dictionary
(`answers[function]` in `camera.py` lines 209-212). -/
def lookupPair (v : PyVal) : List (PyVal × PyVal) → Option PyVal
  | [] => none
  | (k, w) :: rest => if v = k then some w else lookupPair v rest

/-- Modelled from the spec: `hex_to_int` from the missing module
`pyviscam/convert.py`.  Per spec §4.5 it reassembles an ordered sequence of
hex groups, each carrying one nibble of the value, into a single integer. -/
def hexToIntGroups (xs : List Nat) : Nat :=
  xs.foldl (fun acc g => acc * 16 + g % 16) 0

/-- Modelled from the spec: `hex_to_int` applied to the current reply value
(`camera.py` lines 202-207); a list of groups is reassembled, anything else
passes through. -/
def hexToInt : PyVal → PyVal
  | PyVal.vlist xs => PyVal.vint (hexToIntGroups xs)
  | v => v

/-- Modelled from the spec: `scale` from the missing module
`pyviscam/convert.py` — a linear rescale from the native range
`lo1..hi1` to the real-world range `lo2..hi2` (spec §4.5), with Python 2
integer division. -/
def scale (x lo1 hi1 lo2 hi2 : Nat) : Nat :=
  (x - lo1) * (hi2 - lo2) / (hi1 - lo1) + lo2

/-- Modelled from the spec: `visca_to_degree` from the missing module
`pyviscam/pan_tilt_utils.py` — a per-axis linear device-unit-to-degree
conversion with axis-specific clamping (pan −170..170, tilt −20..90, spec
§4.5).  The spec does not fix the device-unit scale factor, so the identity
scale with clamping is used; no claim in this development depends on its
values. -/
def visca_to_degree (v : Nat) (axis : String) : Int :=
  let d : Int := v
  if axis = "pan" then max (-170) (min 170 d) else max (-20) (min 90 d)

/-- String constants for the property names appearing in the decoder's
special cases. -/
def fNR : String := "NR"

def fgamma : String := "gamma"

def fchromasuppress : String := "chromasuppress"

def fcolor_gain : String := "color_gain"

def fcolor_hue : String := "color_hue"

def fpan : String := "pan"

def ftilt : String := "tilt"

def fpan_tilt : String := "pan_tilt"

def fzoom : String := "zoom"

def ffocus : String := "focus"

/-- Decoding stage of `camera.py Camera._query` (lines 184-232), applied to a
successful completion reply `r`.  `reply[2:-1]` strips the 2-byte reply
header and the terminator; an empty remainder would hit `int('', 16)`
(`ValueError`, modelled by `.error`).  One byte decodes to an integer, more
bytes to the list of hex groups; high-resolution classifications reassemble
the groups; an `answers` entry translates the value when present (unchanged
when the value has no entry); `NR`/`gamma`/`chromasuppress` pass through;
`color_gain`/`color_hue` take group 3 and rescale 0-14 to 60-200 with a `%`
or degree suffix (`IndexError`/`TypeError` when the reply has no group 3);
`pan_tilt` splits into two 4-group halves; everything else passes through
untranslated. -/
def pyDecode (T : Tables) (f : String) (r : List Nat) : Except Unit PyVal :=
  let strippedBytes := (r.drop 2).dropLast
  if strippedBytes = [] then .error ()
  else
    let reply0 : PyVal :=
      if strippedBytes.length > 1 then PyVal.vlist strippedBytes
      else PyVal.vint (strippedBytes.headD 0)
    let reply1 : PyVal :=
      if T.high_res.contains f then hexToInt reply0
      else if T.very_high_res.contains f then hexToInt reply0
      else reply0
    match lookupTbl f T.answers with
    | some dict =>
      .ok (match lookupPair reply1 dict with
           | some v => v
           | none => reply1)
    | none =>
      if f = fNR ∨ f = fgamma ∨ f = fchromasuppress then .ok reply1
      else if f = fcolor_gain ∨ f = fcolor_hue then
        match reply1 with
        | PyVal.vlist xs =>
          match xs[3]? with
          | some g =>
            let v := scale g 0 14 60 200
            .ok (PyVal.vstr (Nat.repr v ++ (if f = fcolor_gain then "%" else "°")))
          | none => .error ()
        | _ => .error ()
      else if f = fpan_tilt then
        match reply1 with
        | PyVal.vlist xs =>
          let pan := hexToIntGroups (xs.take 4)
          let tilt := hexToIntGroups ((xs.drop 4).take 4)
          .ok (PyVal.vpair (visca_to_degree pan fpan) (visca_to_degree tilt ftilt))
        | _ => .error ()
      else .ok reply1

/-- Fueled body of `camera.py Camera._query` (lines 145-236).  A missing
(`None`, or empty — Python `not function`) name returns `False`; `pan` and
`tilt` are renamed to `pan_tilt`; a name absent from the `queries` table
returns `False` before any transport I/O; otherwise `0x09 + subcmd` is sent
through `_come_back`.  A `None` outcome re-issues the very same query
(line 179, unbounded in Python); `False` (syntax error) falls through the
`if reply:` test so Python returns `None`; a reply string enters the decoding
stage.  Each re-issue consumes at least one reply frame, so fuel
`replies.length + 1` (supplied by `query_`) is never exhausted. -/
def queryF (T : Tables) : Nat → Option String → SerialState → Except Unit (PyVal × SerialState)
  | 0, _, _ => .error ()
  | fuel + 1, function, s =>
    match function with
    | none => .ok (PyVal.vbool false, s)
    | some f0 =>
      if f0 = "" then .ok (PyVal.vbool false, s)
      else
        let f := if f0 = fpan ∨ f0 = ftilt then fpan_tilt else f0
        match lookupTbl f T.queries with
        | none => .ok (PyVal.vbool false, s)
        | some subcmd =>
          match come_back (0x09 :: subcmd) s with
          | .error e => .error e
          | .ok (PyReply.pnone, s') => queryF T fuel (some f) s'
          | .ok (PyReply.pfalse, s') => .ok (PyVal.vnone, s')
          | .ok (PyReply.pstr r, s') =>
            match pyDecode T f r with
            | .error e => .error e
            | .ok v => .ok (v, s')

/-- `camera.py Camera._query` over a mock transport, with fuel
`replies.length + 1` for the unbounded re-issue recursion of line 179 (each
re-issue consumes at least one reply frame, so the fuel cannot run out before
the transport does). -/
def query_ (T : Tables) (function : Option String) (s : SerialState) :
    Except Unit (PyVal × SerialState) :=
  queryF T (s.replies.length + 1) function s

/-- Net lock-depth contribution of one trace event. -/
def evDelta : Ev → Int
  | Ev.acquire => 1
  | Ev.release => -1
  | _ => 0

/-- Number of `Serial.mutex` acquisitions not yet matched by a release after a
trace. -/
def lockDepth (evs : List Ev) : Int :=
  evs.foldl (fun d e => d + evDelta e) 0

/-- Frame validation performed by `camera.py Camera._send_packet` line 68: a
received frame is valid when its last byte is the `0xff` terminator. -/
def validateFrame (frame : List Nat) : Bool :=
  frame.getLast? == some 0xff

/-- Modelled from the spec: the receiving side of the wire format (spec §6):
broadcast is signalled by bit 3 of the header (header `0x88`), otherwise the
recipient id is the low 3 bits.  The repository only builds frames (the
camera hardware parses them), so the extraction is taken from the spec's
bit-exact wire format. -/
def frameRecipient (frame : List Nat) : Int :=
  let h := frame.headD 0
  if h &&& 0x8 ≠ 0 then -1 else ((h &&& 0b111 : Nat) : Int)

/-- Modelled from the spec: the payload of a frame per the wire format
(spec §6) — the bytes between the header and the terminator. -/
def framePayload (frame : List Nat) : List Nat :=
  (frame.drop 1).dropLast

/-- Concrete instance of the external `queries` table containing only the
`zoom` property (opcode `0x47`), used as the mock catalog in the query
scenarios. -/
def Tzoom : Tables := ⟨[(fzoom, [0x47])], [], [], []⟩

/-- Concrete instance of the external `queries` table containing the
`color_gain` and `color_hue` scaled properties. -/
def Tcolor : Tables := ⟨[(fcolor_gain, [0x49]), (fcolor_hue, [0x4f])], [], [], []⟩

/-- Reading an in-bounds terminated frame through the byte loop of
`Serial.recv_packet` returns the frame unchanged: fewer than 16 bytes before
the terminator and no interior `0xff`. -/
theorem recv_full : ∀ (l : List Nat) (n : Nat), l.length < n →
    (∀ b ∈ l, b ≠ 0xff) → recvLoop (l ++ [0xff]) n = l ++ [0xff] := by
  intro l
  induction l with
  | nil =>
    intro n hlen _
    cases n with
    | zero => simp at hlen
    | succ n => simp [recvLoop]
  | cons a t ih =>
    intro n hlen hff
    cases n with
    | zero => simp at hlen
    | succ n =>
      have ha : a ≠ 0xff := hff a (by simp)
      simp only [List.cons_append, recvLoop, if_neg ha]
      have ht : recvLoop (t ++ [0xff]) n = t ++ [0xff] := by
        apply ih n
        · simp at hlen ⊢
          omega
        · intro b hb
          exact hff b (by simp [hb])
      simp [ht]

/-- The recipient bits fit in 4 bits. -/
theorem rbits_le (recipient : Int) : rbits recipient ≤ 8 := by
  unfold rbits
  split
  · decide
  · have h0 : (0 : Int) ≤ recipient % 8 := Int.emod_nonneg recipient (by decide)
    have h1 : recipient % 8 < 8 := Int.emod_lt_of_pos recipient (by decide)
    omega

/-- The header byte is the top bit plus the recipient bits: the sender bits
are zero and the recipient bits do not overlap `0x80`. -/
theorem headerByte_eq (recipient : Int) : headerByte recipient = 0x80 + rbits recipient := by
  have h : rbits recipient ≤ 8 := rbits_le recipient
  unfold headerByte
  set n := rbits recipient with hn
  interval_cases n <;> decide

/-- A frame ending in the terminator byte validates. -/
theorem validateFrame_concat (l : List Nat) : validateFrame (l ++ [0xff]) = true := by
  simp [validateFrame, List.getLast?_concat]

/-- Unfolding of the recipient extraction on a cons frame. -/
theorem frameRecipient_cons (a : Nat) (l : List Nat) :
    frameRecipient (a :: l) = if a &&& 8 ≠ 0 then (-1 : Int) else ((a &&& 7 : Nat) : Int) :=
  rfl

/-- Extracting the recipient from an encoded packet recovers the recipient,
for the broadcast recipient `-1` and for recipient ids 0-7. -/
theorem frameRecipient_encode (recipient : Int) (p : List Nat)
    (hr : recipient = -1 ∨ 0 ≤ recipient ∧ recipient ≤ 7) :
    frameRecipient (encodePacket recipient p) = recipient := by
  have hcons : encodePacket recipient p = headerByte recipient :: (p ++ [0xff]) := rfl
  rw [hcons, frameRecipient_cons]
  rcases hr with h | ⟨h0, h7⟩
  · subst h
    decide
  · interval_cases recipient <;> decide

/-- C9: the broadcast recipient (`-1`, the broadcast flag of
`Camera._send_packet`) encodes to header `0x88` with sender 0, while a
non-broadcast recipient `r` in 0-7 encodes to header `0x80 + r` — `0x80` with
the low 3 bits equal to `r` and the top bit set. -/
theorem header_encoding :
    headerByte (-1) = 0x88 ∧
    ∀ r : Int, 0 ≤ r → r ≤ 7 →
      headerByte r = 0x80 + r.toNat ∧ Nat.testBit (headerByte r) 7 = true := by
  refine ⟨by decide, ?_⟩
  intro r h0 h7
  interval_cases r <;> exact ⟨by decide, by decide⟩

/-- C9 witness: the header equations evaluated at the broadcast recipient and
at recipient 3. -/
theorem header_encoding_witness :
    headerByte (-1) = 0x88 ∧
    (headerByte 3 = 0x80 + (3 : Int).toNat ∧ Nat.testBit (headerByte 3) 7 = true) :=
  ⟨header_encoding.1, header_encoding.2 3 (by decide) (by decide)⟩

/-- C6 counterexample: a 15-byte payload is not rejected — `Camera._send_packet`
performs no length check — and the emitted frame is 17 bytes long, above the
16-byte ceiling the claim asserts. -/
theorem encode_no_oversize_check :
    (encodePacket 1 (List.replicate 15 0)).length = 17 ∧
    ¬ (encodePacket 1 (List.replicate 15 0)).length ≤ 16 := by
  decide

/-- C6 as amended: the encoder appends one header byte and one terminator
byte around the payload unconditionally, so the frame is always
`payload length + 2` bytes; for in-contract payloads of 1-14 bytes this gives
3-16 bytes, but the 1-14 bound is an unchecked caller-side contract and an
oversized payload yields an over-long frame instead of failing. -/
theorem encode_length_contract (recipient : Int) (p : List Nat) :
    (encodePacket recipient p).length = p.length + 2 ∧
    (1 ≤ p.length → p.length ≤ 14 →
      3 ≤ (encodePacket recipient p).length ∧ (encodePacket recipient p).length ≤ 16) := by
  have hl : (encodePacket recipient p).length = p.length + 2 := by
    simp [encodePacket]
  refine ⟨hl, ?_⟩
  intro h1 h2
  rw [hl]
  omega

/-- C6 witness: the length contract evaluated at a 1-byte payload. -/
theorem encode_length_contract_witness :
    (encodePacket 1 [0x09]).length = ([0x09] : List Nat).length + 2 ∧
    (3 ≤ (encodePacket 1 [0x09]).length ∧ (encodePacket 1 [0x09]).length ≤ 16) :=
  ⟨(encode_length_contract 1 [0x09]).1,
   (encode_length_contract 1 [0x09]).2 (by decide) (by decide)⟩

/-- C1: for every payload of 1-14 bytes with no interior terminator byte and
every valid address (broadcast `-1` or recipient 0-7, sender fixed to 0),
encoding, transmitting through the 16-byte read loop and validating the
received frame succeeds and recovers the original recipient and payload. -/
theorem encode_validate_roundtrip (recipient : Int) (p : List Nat)
    (h1 : 1 ≤ p.length) (h2 : p.length ≤ 14)
    (_hb : ∀ b ∈ p, b < 256) (hff : ∀ b ∈ p, b ≠ 0xff)
    (hr : recipient = -1 ∨ 0 ≤ recipient ∧ recipient ≤ 7) :
    validateFrame (recvLoop (encodePacket recipient p) 16) = true ∧
    frameRecipient (recvLoop (encodePacket recipient p) 16) = recipient ∧
    framePayload (recvLoop (encodePacket recipient p) 16) = p := by
  have hshape : encodePacket recipient p = (headerByte recipient :: p) ++ [0xff] := by
    simp [encodePacket]
  have hhead : headerByte recipient ≠ 0xff := by
    rw [headerByte_eq]
    have := rbits_le recipient
    omega
  have hrecv : recvLoop (encodePacket recipient p) 16 = encodePacket recipient p := by
    rw [hshape]
    apply recv_full
    · simp
      omega
    · intro b hb'
      rcases List.mem_cons.mp hb' with h | h
      · rw [h]
        exact hhead
      · exact hff b h
  rw [hrecv]
  refine ⟨?_, frameRecipient_encode recipient p hr, ?_⟩
  · rw [hshape]
    exact validateFrame_concat _
  · rw [hshape]
    show ((headerByte recipient :: p) ++ [0xff] : List Nat).tail.dropLast = p
    simp [List.dropLast_concat]

/-- C1 witness: the round trip evaluated at recipient 5 and payload
`[1, 2, 3]`. -/
theorem encode_validate_roundtrip_witness :
    validateFrame (recvLoop (encodePacket 5 [1, 2, 3]) 16) = true ∧
    frameRecipient (recvLoop (encodePacket 5 [1, 2, 3]) 16) = 5 ∧
    framePayload (recvLoop (encodePacket 5 [1, 2, 3]) 16) = [1, 2, 3] :=
  encode_validate_roundtrip 5 [1, 2, 3] (by decide) (by decide) (by decide) (by decide)
    (Or.inr ⟨by decide, by decide⟩)

/-- C3: the command handshake accepts matched ack/completion pairs on either
socket — `Ack(1), Completion(1)` and `Ack(2), Completion(2)` both return
`True` — while the mismatched `Ack(1), Completion(2)` falls through to the
`None` outcome of `Camera._cmd_cam`, a result distinguishable from success
(`True`) and from the explicit `False` failures. -/
theorem cmd_handshake_pairing :
    (cmd_cam [0x01, 0x04] [0x00, 0x02] ⟨[[0x90, 0x41, 0xff], [0x90, 0x51, 0xff]], []⟩).1 =
      some true ∧
    (cmd_cam [0x01, 0x04] [0x00, 0x02] ⟨[[0x90, 0x42, 0xff], [0x90, 0x52, 0xff]], []⟩).1 =
      some true ∧
    (cmd_cam [0x01, 0x04] [0x00, 0x02] ⟨[[0x90, 0x41, 0xff], [0x90, 0x52, 0xff]], []⟩).1 =
      none ∧
    (none : Option Bool) ≠ some true ∧ (none : Option Bool) ≠ some false := by
  decide

/-- C4: the code violates the single-acquisition contract in two ways, shown
on the power-on command `01 04 00 02`.  First, when the transport yields no
reply (timeout), `Camera._send_packet` returns `None` with the mutex still
held — the final trace has lock depth 1.  Second, on the successful
`Ack(1), Completion(1)` exchange the completion frame is read *after* the
release: the trace is acquire, write, read ack, release, read completion, so
the second read of the exchange happens outside the critical section. -/
theorem exchange_lock_leak_and_unlocked_completion_read :
    (send_packet 1 [0x01, 0x04, 0x00, 0x02] ⟨[], []⟩).1 = none ∧
    lockDepth ((send_packet 1 [0x01, 0x04, 0x00, 0x02] ⟨[], []⟩).2.events) = 1 ∧
    (cmd_cam [0x01, 0x04] [0x00, 0x02] ⟨[[0x90, 0x41, 0xff], [0x90, 0x51, 0xff]], []⟩).1 =
      some true ∧
    (cmd_cam [0x01, 0x04] [0x00, 0x02] ⟨[[0x90, 0x41, 0xff], [0x90, 0x51, 0xff]], []⟩).2.events =
      [Ev.acquire, Ev.write [0x81, 0x01, 0x04, 0x00, 0x02, 0xff], Ev.read [0x90, 0x41, 0xff],
       Ev.release, Ev.read [0x90, 0x51, 0xff]] := by
  decide

/-- C2: over a transport that replies BufferFull twice and then a completion
with payload `0x12`, `Camera._come_back` does retransmit the identical zoom
query twice (three identical writes appear in the trace), but the missing
`return` on its buffer-full branch discards the recursive result: the caller
gets `None` instead of the payload.  `Camera._query` then re-issues the whole
query against the drained transport and crashes with `AttributeError`
(`.error`), so the caller never observes success with the final payload. -/
theorem query_bufferfull_retry_result_lost :
    come_back [0x09, 0x47]
        ⟨[[0x90, 0x60, 0x03, 0xff], [0x90, 0x60, 0x03, 0xff], [0x90, 0x50, 0x12, 0xff]], []⟩ =
      Except.ok (PyReply.pnone,
        ⟨[], [Ev.acquire, Ev.write [0x81, 0x09, 0x47, 0xff], Ev.read [0x90, 0x60, 0x03, 0xff],
              Ev.release,
              Ev.acquire, Ev.write [0x81, 0x09, 0x47, 0xff], Ev.read [0x90, 0x60, 0x03, 0xff],
              Ev.release,
              Ev.acquire, Ev.write [0x81, 0x09, 0x47, 0xff], Ev.read [0x90, 0x50, 0x12, 0xff],
              Ev.release]⟩) ∧
    query_ Tzoom (some fzoom)
        ⟨[[0x90, 0x60, 0x03, 0xff], [0x90, 0x60, 0x03, 0xff], [0x90, 0x50, 0x12, 0xff]], []⟩ =
      Except.error () := by
  decide

/-- C5: on a timed-out reply (no bytes at all) or a malformed reply (not
`0xff`-terminated), `Camera._send_packet` hands `None` to `Camera._come_back`,
whose `reply.startswith(...)` then raises `AttributeError` — modelled as
`.error` — instead of treating the reply as "no answer" and re-issuing the
query; the crash propagates out of `Camera._query`. -/
theorem query_noanswer_crash :
    come_back [0x09, 0x47] ⟨[], []⟩ = Except.error () ∧
    come_back [0x09, 0x47] ⟨[[0x90, 0x50, 0x12]], []⟩ = Except.error () ∧
    query_ Tzoom (some fzoom) ⟨[[0x90, 0x50, 0x12]], []⟩ = Except.error () := by
  decide

/-- C7: the scaled decoder takes byte group 3 of the completion payload and
rescales 0-14 to 60-200 for *both* color properties: gain `0x0e` gives
`200%` and `0x00` gives `60%` as the claim states, but hue `0x00` gives the
string `60°` and `0x0e` gives `200°` — the same 60-200 rescale with a degree
suffix — not a value in the symmetric −14..+14 degree range that the claim
and the `color_hue` docstring describe. -/
theorem scaled_decoder_gain_and_hue :
    (query_ Tcolor (some fcolor_gain)
        ⟨[[0x90, 0x50, 0x00, 0x00, 0x00, 0x0e, 0xff]], []⟩).map Prod.fst =
      Except.ok (PyVal.vstr "200%") ∧
    (query_ Tcolor (some fcolor_gain)
        ⟨[[0x90, 0x50, 0x00, 0x00, 0x00, 0x00, 0xff]], []⟩).map Prod.fst =
      Except.ok (PyVal.vstr "60%") ∧
    (query_ Tcolor (some fcolor_hue)
        ⟨[[0x90, 0x50, 0x00, 0x00, 0x00, 0x00, 0xff]], []⟩).map Prod.fst =
      Except.ok (PyVal.vstr "60°") ∧
    (query_ Tcolor (some fcolor_hue)
        ⟨[[0x90, 0x50, 0x00, 0x00, 0x00, 0x0e, 0xff]], []⟩).map Prod.fst =
      Except.ok (PyVal.vstr "200°") := by
  decide

/-- C10: `Camera._query` with a missing property name (`None`), or with a
name that is absent from the `queries` code table (after the `pan`/`tilt`
renaming the code applies before the lookup), returns `False` with the
transport state — in particular its event trace — completely unchanged: no
write and no read occur, for every table and every transport state. -/
theorem query_unknown_function_no_io (T : Tables) (s : SerialState) (name : String)
    (h : lookupTbl (if name = fpan ∨ name = ftilt then fpan_tilt else name) T.queries = none) :
    query_ T (some name) s = Except.ok (PyVal.vbool false, s) ∧
    query_ T none s = Except.ok (PyVal.vbool false, s) := by
  constructor
  · unfold query_
    by_cases he : name = ""
    · simp [queryF, he]
    · simp [queryF, he, h]
  · unfold query_
    simp [queryF]

/-- C10 witness: the no-I/O early return evaluated at the name `focus`,
absent from the zoom-only table, over an empty transport. -/
theorem query_unknown_function_no_io_witness :
    query_ Tzoom (some ffocus) ⟨[], []⟩ = Except.ok (PyVal.vbool false, ⟨[], []⟩) ∧
    query_ Tzoom none ⟨[], []⟩ = Except.ok (PyVal.vbool false, ⟨[], []⟩) :=
  query_unknown_function_no_io Tzoom ⟨[], []⟩ ffocus (by decide)

/-- A well-formed reply frame waiting on the mock transport is delivered
whole by `Camera._send_packet`: the packet is framed and written, the frame
is read back through the byte loop, passes the terminator check, and the
mutex is released. -/
theorem send_packet_deliver (rc : Int) (d : List Nat) (l : List Nat)
    (rest : List (List Nat)) (evs : List Ev)
    (hlen : l.length < 16) (hff : ∀ b ∈ l, b ≠ 0xff) :
    send_packet rc d ⟨(l ++ [0xff]) :: rest, evs⟩ =
      (some (l ++ [0xff]),
       ⟨rest, evs ++ [Ev.acquire, Ev.write (encodePacket rc d), Ev.read (l ++ [0xff]),
                      Ev.release]⟩) := by
  have h1 : recvLoop (l ++ [0xff]) 16 = l ++ [0xff] := recv_full l 16 hlen hff
  simp [send_packet, recv_packet, h1, List.getLast?_concat]

/-- C8: on a successful query — the transport answers with a completion
frame `0x90 0x50 <payload> 0xff` — `Camera._query` hands the caller the
payload stripped of the 2-byte reply header and of the trailing terminator:
a payload of two or more groups comes back as exactly that group list, and a
1-group payload comes back as a single unsigned integer below 256. -/
theorem query_payload_stripping (p : List Nat)
    (h1 : 1 ≤ p.length) (h2 : p.length ≤ 13)
    (hb : ∀ b ∈ p, b < 256) (hff : ∀ b ∈ p, b ≠ 0xff) :
    (query_ Tzoom (some fzoom) ⟨[[0x90, 0x50] ++ p ++ [0xff]], []⟩).map Prod.fst =
      Except.ok (if p.length = 1 then PyVal.vint (p.headD 0) else PyVal.vlist p) ∧
    (p.length = 1 → p.headD 0 < 256) := by
  have hp0 : p ≠ [] := List.ne_nil_of_length_pos (by omega)
  constructor
  · have hsend := send_packet_deliver 1 [0x09, 0x47] (0x90 :: 0x50 :: p) [] []
      (by simp only [List.length_cons]; omega)
      (by
        intro b hb'
        rcases List.mem_cons.mp hb' with h | h
        · rw [h]; decide
        · rcases List.mem_cons.mp h with h' | h'
          · rw [h']; decide
          · exact hff b h')
    simp only [List.cons_append, List.nil_append] at hsend
    have hshape : [0x90, 0x50] ++ p ++ [0xff] = 0x90 :: 0x50 :: (p ++ [0xff]) := by simp
    rw [hshape]
    unfold query_
    simp [queryF, come_back, come_backF, pyDecode, hsend, hp0, Tzoom, lookupTbl, fzoom, fpan,
      ftilt, fpan_tilt, fNR, fgamma, fchromasuppress, fcolor_gain, fcolor_hue,
      List.dropLast_concat]
    by_cases hl : p.length = 1
    · simp [Except.map, hl]
    · have hgt : 1 < p.length := by omega
      simp [Except.map, hl, hgt]
  · intro _
    cases p with
    | nil => exact absurd rfl hp0
    | cons a t => exact hb a (by simp)

/-- C8 witness: the stripping theorem evaluated at the 1-group payload
`[0x12]`: the caller receives the integer `0x12`, which is below 256. -/
theorem query_payload_stripping_witness :
    (query_ Tzoom (some fzoom) ⟨[[0x90, 0x50] ++ [0x12] ++ [0xff]], []⟩).map Prod.fst =
      Except.ok (if ([0x12] : List Nat).length = 1 then PyVal.vint (([0x12] : List Nat).headD 0)
                 else PyVal.vlist [0x12]) ∧
    (([0x12] : List Nat).length = 1 → ([0x12] : List Nat).headD 0 < 256) :=
  query_payload_stripping [0x12] (by decide) (by decide) (by decide) (by decide)
